import Mathlib

/-!
Verification of the execution engine of a streaming brainfuck interpreter
(`src/main.rs`).  The Rust program is shallowly embedded below: the
`BrainfuckVMStatus` struct becomes a Lean structure (the `HashMap<i32,i32>`
tape is modelled as a total function `Int → Int` with absent keys reading 0,
matching the `entry(..).or_insert(0)` discipline of the source), stdin and
stdout are modelled as explicit `input`/`output` state components, and the
two unbounded `while` loops inside the `LoopEndOp` arm of `run_vm`, together
with the recursion of `run_vm` itself, are made total with an explicit fuel
parameter: running out of fuel is the distinguished result `.error .outOfFuel`,
and a run that diverges in the source exhausts every fuel.
-/

set_option maxRecDepth 10000

/-- The `BrainfuckOp` type of the source: the eight instruction characters
plus `MonoStateOp` for every other character. -/
inductive BrainfuckOp where
  | IncrementValueOp
  | DecrementValueOp
  | IncrementPtrOp
  | DecrementPtrOp
  | PrintOp
  | ReadOp
  | LoopStartOp
  | LoopEndOp
  | MonoStateOp
deriving DecidableEq

/-- Errors a run can produce in the embedding: `inputUnavailable` models the
`input.unwrap()` panic of the `ReadOp` arm when stdin yields no byte,
`badIndex` models an out-of-bounds `status.instruction[..]` index panic, and
`outOfFuel` means the fuel bound was reached (the source would still be
running). -/
inductive VMError where
  | inputUnavailable
  | badIndex
  | outOfFuel
deriving DecidableEq

/-- The `BrainfuckVMStatus` struct of the source.  `tape` is the
`HashMap<i32, i32>` viewed as a total function with default 0; `input` and
`output` model the stdin byte stream and the bytes printed so far. -/
structure BrainfuckVMStatus where
  tape : Int → Int
  tape_ptr : Int
  instruction : List Char
  instruction_ptr_current : Int
  instruction_loop_ptr : List Int
  jump_loop : Int
  input : List (Fin 256)
  output : List Nat

/-- Point update of the tape function: `tape.insert(i, v)` /
`*entry = v` in the source. -/
def tapeSet (t : Int → Int) (i v : Int) : Int → Int :=
  fun j => if j = i then v else t j

/-- `new_brainfuck_status` of the source, with the (opaque in the source)
stdin byte stream made explicit. -/
def new_brainfuck_status (inp : List (Fin 256)) : BrainfuckVMStatus :=
  { tape := fun _ => 0
    tape_ptr := 0
    instruction := []
    instruction_ptr_current := -1
    instruction_loop_ptr := []
    jump_loop := 0
    input := inp
    output := [] }

/-- The character classification table inside `next_op`. -/
def charToOp (c : Char) : BrainfuckOp :=
  if c = '+' then .IncrementValueOp
  else if c = '-' then .DecrementValueOp
  else if c = '>' then .IncrementPtrOp
  else if c = '<' then .DecrementPtrOp
  else if c = '.' then .PrintOp
  else if c = ',' then .ReadOp
  else if c = '[' then .LoopStartOp
  else if c = ']' then .LoopEndOp
  else .MonoStateOp

/-- `next_op` of the source: classify the character and, when not invoked
from a loop replay (`via_loop = false`) and the character is a valid
instruction, append it to `instruction` and advance
`instruction_ptr_current` by one. -/
def next_op (s : BrainfuckVMStatus) (c : Char) (via_loop : Bool) :
    BrainfuckOp × BrainfuckVMStatus :=
  let op := charToOp c
  if via_loop then (op, s)
  else
    match op with
    | .MonoStateOp => (op, s)
    | _ => (op, { s with
                  instruction := s.instruction ++ [c]
                  instruction_ptr_current := s.instruction_ptr_current + 1 })

/-- The byte printed by the `PrintOp` arm: Rust's `(out % 255) as u8`, where
`%` is the truncated remainder `Int.tmod` and `as u8` keeps the low 8 bits,
i.e. the Euclidean remainder mod 256. -/
def printByte (v : Int) : Nat :=
  ((Int.tmod v 255) % 256).toNat

/-- The inner `while status.instruction_ptr_current < current` replay loop of
the `LoopEndOp` arm: take the instruction stored in the ledger at the cursor
(an out-of-range index is the Rust index panic), dispatch it through `step`
(which is `run_vm` with `via_loop = true`), and advance the cursor by one,
until the cursor reaches `current`. -/
def replayInner (step : BrainfuckVMStatus → Char → Except VMError BrainfuckVMStatus) :
    Nat → BrainfuckVMStatus → Int → Except VMError BrainfuckVMStatus
  | 0, _, _ => .error .outOfFuel
  | f + 1, s, current =>
    if s.instruction_ptr_current < current then
      if s.instruction_ptr_current < 0 then .error .badIndex
      else
        match s.instruction.get? s.instruction_ptr_current.toNat with
        | none => .error .badIndex
        | some c =>
          match step s c with
          | .ok s' =>
            replayInner step f
              { s' with instruction_ptr_current := s'.instruction_ptr_current + 1 }
              current
          | .error e => .error e
    else .ok s

/-- The outer `while *status.tape.entry(..).or_insert(0) != 0` loop of the
`LoopEndOp` arm: while the cell at the tape pointer is non-zero, save the
cursor, jump to one past the top of the loop-start stack (when the stack is
empty, `if let Some(last)` fails and the iteration changes nothing), replay
the body with `replayInner`, restore the cursor, and re-check the cell. -/
def loopEndOuter (step : BrainfuckVMStatus → Char → Except VMError BrainfuckVMStatus) :
    Nat → BrainfuckVMStatus → Except VMError BrainfuckVMStatus
  | 0, _ => .error .outOfFuel
  | f + 1, s =>
    if s.tape s.tape_ptr = 0 then .ok s
    else
      match s.instruction_loop_ptr.getLast? with
      | none => loopEndOuter step f s
      | some last =>
        match replayInner step f
            { s with instruction_ptr_current := last + 1 }
            s.instruction_ptr_current with
        | .ok s' =>
          loopEndOuter step f
            { s' with instruction_ptr_current := s.instruction_ptr_current }
        | .error e => .error e

/-- `run_vm` of the source, with fuel.  The structure follows the Rust match
arm by arm: every data/IO arm is guarded by `jump_loop == 0`; `LoopStartOp`
pushes the cursor when the cell is non-zero and no skip is active, otherwise
increments `jump_loop`; `LoopEndOp` decrements a non-zero `jump_loop`,
otherwise runs the replay loop when the cell is non-zero and pops the
loop-start stack (`Vec::pop` = `List.dropLast`) afterwards. -/
def run_vm : Nat → BrainfuckVMStatus → Char → Bool → Except VMError BrainfuckVMStatus
  | 0, _, _, _ => .error .outOfFuel
  | fuel + 1, s0, char_op, via_loop =>
    match next_op s0 char_op via_loop with
    | (op, s) =>
      match op with
      | .IncrementValueOp =>
        .ok (if s.jump_loop = 0 then
              { s with tape := tapeSet s.tape s.tape_ptr (s.tape s.tape_ptr + 1) }
             else s)
      | .DecrementValueOp =>
        .ok (if s.jump_loop = 0 then
              { s with tape := tapeSet s.tape s.tape_ptr (s.tape s.tape_ptr - 1) }
             else s)
      | .IncrementPtrOp =>
        .ok (if s.jump_loop = 0 then { s with tape_ptr := s.tape_ptr + 1 } else s)
      | .DecrementPtrOp =>
        .ok (if s.jump_loop = 0 then { s with tape_ptr := s.tape_ptr - 1 } else s)
      | .PrintOp =>
        .ok (if s.jump_loop = 0 then
              { s with output := s.output ++ [printByte (s.tape s.tape_ptr)] }
             else s)
      | .ReadOp =>
        if s.jump_loop = 0 then
          match s.input with
          | [] => .error .inputUnavailable
          | b :: rest =>
            .ok { s with
                  tape := tapeSet s.tape s.tape_ptr (b.val : Int)
                  input := rest }
        else .ok s
      | .LoopStartOp =>
        .ok (if s.tape s.tape_ptr ≠ 0 ∧ s.jump_loop = 0 then
              { s with instruction_loop_ptr :=
                  s.instruction_loop_ptr ++ [s.instruction_ptr_current] }
             else { s with jump_loop := s.jump_loop + 1 })
      | .LoopEndOp =>
        if s.jump_loop ≠ 0 then .ok { s with jump_loop := s.jump_loop - 1 }
        else if s.tape s.tape_ptr ≠ 0 then
          (loopEndOuter (fun s' c' => run_vm fuel s' c' true) fuel s).map
            (fun t => { t with
                        instruction_loop_ptr := t.instruction_loop_ptr.dropLast })
        else .ok s
      | .MonoStateOp => .ok s

/-- The character loop of `main`: feed each program character to `run_vm`
with `via_loop = false`, stopping at the first error. -/
def runChars (fuel : Nat) : List Char → BrainfuckVMStatus → Except VMError BrainfuckVMStatus
  | [], s => .ok s
  | c :: cs, s =>
    match run_vm fuel s c false with
    | .ok s' => runChars fuel cs s'
    | .error e => .error e

/-- A whole run of `main`: a fresh `new_brainfuck_status` fed the program
text character by character. -/
def runProgram (fuel : Nat) (prog : List Char) (inp : List (Fin 256)) :
    Except VMError BrainfuckVMStatus :=
  runChars fuel prog (new_brainfuck_status inp)

deriving instance DecidableEq for Except

/-- A state whose current cell holds 256, used to evaluate the `PrintOp` arm
at the boundary value of claim C1. -/
def c1_state : BrainfuckVMStatus :=
  { tape := tapeSet (fun _ => 0) 0 256
    tape_ptr := 0
    instruction := []
    instruction_ptr_current := -1
    instruction_loop_ptr := []
    jump_loop := 0
    input := []
    output := [] }

/-- The engine state reached by feeding `+[-` to a fresh engine: the cell at
index 0 is back to 0, the loop-start stack holds the ledger index 1 of the
`[`, and no skip is active — exactly the state in which the claim C2 loop-end
is dispatched. -/
def c2_pre : BrainfuckVMStatus :=
  (runChars 10 ['+', '[', '-'] (new_brainfuck_status [])).toOption.getD
    (new_brainfuck_status [])

/-- A live-loop state for claim C3's witness: cell 2 at the pointer, the
loop-start stack holding index 2 of the `[` of `++[-]`, cursor at the `]`. -/
def c3_w : BrainfuckVMStatus :=
  { tape := tapeSet (fun _ => 0) 0 2
    tape_ptr := 0
    instruction := ['+', '+', '[', '-', ']']
    instruction_ptr_current := 4
    instruction_loop_ptr := [2]
    jump_loop := 0
    input := []
    output := [] }

/-- A fresh-like state with a non-zero current cell, for the push branch of
claim C4. -/
def c4_w1 : BrainfuckVMStatus :=
  { tape := tapeSet (fun _ => 0) 0 1
    tape_ptr := 0
    instruction := []
    instruction_ptr_current := -1
    instruction_loop_ptr := []
    jump_loop := 0
    input := []
    output := [] }

/-- A fresh-like state with a zero current cell, for the skip branch of
claim C4. -/
def c4_w2 : BrainfuckVMStatus :=
  { tape := fun _ => 0
    tape_ptr := 0
    instruction := []
    instruction_ptr_current := -1
    instruction_loop_ptr := []
    jump_loop := 0
    input := []
    output := [] }

/-- A state in skip mode (`jump_loop = 1`), for claim C5's witness. -/
def c5_w : BrainfuckVMStatus :=
  { tape := fun _ => 0
    tape_ptr := 0
    instruction := ['[']
    instruction_ptr_current := 0
    instruction_loop_ptr := []
    jump_loop := 1
    input := []
    output := [] }

/-- A live-loop state at a `]` with a non-zero cell and stack top 0, for
claim C6's witness. -/
def c6_w : BrainfuckVMStatus :=
  { tape := tapeSet (fun _ => 0) 0 1
    tape_ptr := 0
    instruction := ['[', '-', ']']
    instruction_ptr_current := 2
    instruction_loop_ptr := [0]
    jump_loop := 0
    input := []
    output := [] }

/-- A state whose current cell is zero, for the loop-exit equation of claim
C6's witness. -/
def c6_z : BrainfuckVMStatus :=
  { tape := fun _ => 0
    tape_ptr := 0
    instruction := ['[', '-', ']']
    instruction_ptr_current := 2
    instruction_loop_ptr := [0]
    jump_loop := 0
    input := []
    output := [] }

/-- A one-instruction replay state (cursor 0 on a ledger `['-']`), for the
replay-step equation of claim C6's witness. -/
def c6_r : BrainfuckVMStatus :=
  { tape := tapeSet (fun _ => 0) 0 1
    tape_ptr := 0
    instruction := ['-']
    instruction_ptr_current := 0
    instruction_loop_ptr := []
    jump_loop := 0
    input := []
    output := [] }

/-- The program of claim C7. -/
def c7_prog : List Char := ['+', '+', '+', '[', '-', ']']

/-- The engine state of the `+++[-]` run at its `]` with the current cell
holding `v`: ledger complete, cursor 5 (the `]`), loop-start stack `[3]`. -/
def c7_body_state (v : Int) : BrainfuckVMStatus :=
  { tape := tapeSet (fun _ => 0) 0 v
    tape_ptr := 0
    instruction := c7_prog
    instruction_ptr_current := 5
    instruction_loop_ptr := [3]
    jump_loop := 0
    input := []
    output := [] }

/-- A fresh-like state with one pending input byte 65, for claim C8. -/
def c8_w : BrainfuckVMStatus :=
  { tape := fun _ => 0
    tape_ptr := 0
    instruction := []
    instruction_ptr_current := -1
    instruction_loop_ptr := []
    jump_loop := 0
    input := [(65 : Fin 256)]
    output := [] }

/-- A fresh-like state with no pending input, for the fatal branch of claim
C8. -/
def c8_w2 : BrainfuckVMStatus :=
  { tape := fun _ => 0
    tape_ptr := 0
    instruction := []
    instruction_ptr_current := -1
    instruction_loop_ptr := []
    jump_loop := 0
    input := []
    output := [] }

/-- A state at a `]` with a non-zero cell and an empty loop-start stack, for
claim C10. -/
def c10_w : BrainfuckVMStatus :=
  { tape := tapeSet (fun _ => 0) 0 1
    tape_ptr := 0
    instruction := [']']
    instruction_ptr_current := 0
    instruction_loop_ptr := []
    jump_loop := 0
    input := []
    output := [] }

/-- Replaying never appends: `next_op` with `via_loop = true` returns the
state unchanged. -/
theorem next_op_replay (s : BrainfuckVMStatus) (c : Char) :
    next_op s c true = (charToOp c, s) := rfl

/-- Live dispatch of `]` appends it to the ledger and advances the cursor. -/
theorem next_op_live_loopEnd (s : BrainfuckVMStatus) :
    next_op s ']' false =
      (.LoopEndOp, { s with instruction := s.instruction ++ [']']
                            instruction_ptr_current := s.instruction_ptr_current + 1 }) := rfl

/-- Claim C1: the spec requires the output byte to be the cell value reduced
modulo 256 (256 ↦ 0, -1 ↦ 255).  The source computes `(out % 255) as u8`
instead: with the current cell holding 256 the dispatched output instruction
emits byte 1 (mod 256 would give 0), and a cell holding 255 would emit 0
(mod 256 would give 255).  Only the claim's `-1 ↦ 255` instance happens to
agree with the code. -/
theorem print_op_uses_mod_255 :
    (run_vm 2 c1_state '.' false).map (fun s => s.output) = .ok [1]
    ∧ ((256 : Int) % 256).toNat = 0
    ∧ printByte 256 = 1 ∧ printByte 255 = 0 ∧ printByte (-1) = 255 := by
  decide

/-- Claim C2, counterexample: feeding `+[-` to a fresh engine reaches a state
with skip depth 0, current cell 0 and loop-start stack `[1]`; dispatching the
matching `]` there leaves the stack at `[1]` — the entry pushed by the
corresponding `[` is not popped, contradicting the claim. -/
theorem loop_end_zero_cell_no_pop_cex :
    (c2_pre.jump_loop, c2_pre.tape c2_pre.tape_ptr, c2_pre.instruction_loop_ptr) =
      (0, 0, [1])
    ∧ (run_vm 10 c2_pre ']' false).map (fun s => s.instruction_loop_ptr) = .ok [1]
    ∧ ¬ (run_vm 10 c2_pre ']' false).map (fun s => s.instruction_loop_ptr) = .ok [] := by
  decide

/-- Claim C2, amended: when a loop-end instruction is dispatched with skip
depth zero and the value at the current tape index equal to zero, nothing is
popped and the state is left exactly as `next_op` produced it (i.e. unchanged
apart from the ledger append that every live valid instruction performs). -/
theorem loop_end_zero_cell_state_unchanged (f : Nat) (s : BrainfuckVMStatus)
    (via : Bool) (h1 : s.jump_loop = 0) (h2 : s.tape s.tape_ptr = 0) :
    run_vm (f + 1) s ']' via = .ok (next_op s ']' via).2 := by
  cases via <;> simp [run_vm, next_op, charToOp, h1, h2]

/-- Witness for the amended claim C2 at the concrete `+[-` state. -/
theorem loop_end_zero_cell_state_unchanged_witness :
    run_vm (9 + 1) c2_pre ']' true = .ok (next_op c2_pre ']' true).2 :=
  loop_end_zero_cell_state_unchanged 9 c2_pre true (by decide) (by decide)

/-- Claim C3, counterexample: the complete run of `+[-]` from a fresh engine
terminates with loop-start stack `[1]`, skip depth 0 and all loops exited, so
the entry pushed by the `[` was never popped and the stack depth (1) differs
from the nesting depth of live-interpreted loops (0). -/
theorem loop_stack_invariant_cex :
    (runProgram 10 ['+', '[', '-', ']'] []).map
      (fun s => (s.instruction_loop_ptr, s.jump_loop, s.tape 0)) = .ok ([1], 0, 0)
    ∧ ¬ (runProgram 10 ['+', '[', '-', ']'] []).map
        (fun s => s.instruction_loop_ptr) = .ok [] := by
  decide

/-- Claim C3, amended: a loop-start entry is consumed only on the non-zero
path — a loop-end dispatched with skip depth zero and a non-zero current cell
runs the replay loop and then pops the stack exactly once (`List.dropLast`);
a loop-end that finds the cell already zero pops nothing
(`loop_end_zero_cell_state_unchanged`), so the stack depth can exceed the
live-loop nesting depth. -/
theorem loop_end_nonzero_pops_once (f : Nat) (s : BrainfuckVMStatus) (via : Bool)
    (h1 : s.jump_loop = 0) (h2 : s.tape s.tape_ptr ≠ 0) :
    run_vm (f + 1) s ']' via =
      (loopEndOuter (fun s' c' => run_vm f s' c' true) f (next_op s ']' via).2).map
        (fun t => { t with instruction_loop_ptr := t.instruction_loop_ptr.dropLast }) := by
  cases via <;> simp [run_vm, next_op, charToOp, h1, h2]

/-- Witness for the amended claim C3 at a concrete live-loop state. -/
theorem loop_end_nonzero_pops_once_witness :
    run_vm (8 + 1) c3_w ']' true =
      (loopEndOuter (fun s' c' => run_vm 8 s' c' true) 8 (next_op c3_w ']' true).2).map
        (fun t => { t with instruction_loop_ptr := t.instruction_loop_ptr.dropLast }) :=
  loop_end_nonzero_pops_once 8 c3_w true (by decide) (by decide)

/-- Claim C4: dispatching a loop-start with skip depth zero and a non-zero
current cell pushes the current cursor onto the loop-start stack (and, the
record update touching no other field, leaves the skip depth at zero);
otherwise — skip depth non-zero, or cell zero — the skip depth is incremented
by one and the stack (untouched by the record update) is unchanged. -/
theorem loop_start_dispatch_cases (f : Nat) (s : BrainfuckVMStatus) (via : Bool) :
    (s.jump_loop = 0 → s.tape s.tape_ptr ≠ 0 →
      run_vm (f + 1) s '[' via =
        .ok { (next_op s '[' via).2 with
              instruction_loop_ptr :=
                s.instruction_loop_ptr ++ [(next_op s '[' via).2.instruction_ptr_current] })
    ∧ (¬ (s.jump_loop = 0 ∧ s.tape s.tape_ptr ≠ 0) →
      run_vm (f + 1) s '[' via =
        .ok { (next_op s '[' via).2 with jump_loop := s.jump_loop + 1 }) := by
  constructor
  · intro h1 h2
    cases via <;> simp [run_vm, next_op, charToOp, h1, h2]
  · intro h
    cases via <;> simp [run_vm, next_op, charToOp] <;> tauto

/-- Witness for claim C4: the push branch at a cell-1 fresh state and the
skip branch at a cell-0 fresh state. -/
theorem loop_start_dispatch_cases_witness :
    run_vm (3 + 1) c4_w1 '[' false =
      .ok { (next_op c4_w1 '[' false).2 with
            instruction_loop_ptr :=
              c4_w1.instruction_loop_ptr ++
                [(next_op c4_w1 '[' false).2.instruction_ptr_current] }
    ∧ run_vm (3 + 1) c4_w2 '[' false =
      .ok { (next_op c4_w2 '[' false).2 with jump_loop := c4_w2.jump_loop + 1 } :=
  ⟨(loop_start_dispatch_cases 3 c4_w1 false).1 (by decide) (by decide),
   (loop_start_dispatch_cases 3 c4_w2 false).2 (by decide)⟩

/-- Claim C5: while the skip depth is positive, dispatching any of the six
instructions `+ - > < . ,` leaves the tape (every cell), the tape pointer,
the loop-start stack, the skip depth and the output unchanged. -/
theorem skip_mode_six_ops_no_effect (f : Nat) (s : BrainfuckVMStatus) (c : Char)
    (via : Bool) (hc : c ∈ ['+', '-', '>', '<', '.', ','])
    (hj : 0 < s.jump_loop) :
    (run_vm (f + 1) s c via).map
      (fun t => (t.tape, t.tape_ptr, t.instruction_loop_ptr, t.jump_loop, t.output)) =
      .ok (s.tape, s.tape_ptr, s.instruction_loop_ptr, s.jump_loop, s.output) := by
  have hj' : s.jump_loop ≠ 0 := by omega
  fin_cases hc <;> cases via <;> simp [run_vm, next_op, charToOp, Except.map, hj']

/-- Witness for claim C5 at a concrete skip-mode state. -/
theorem skip_mode_six_ops_no_effect_witness :
    (run_vm (2 + 1) c5_w '+' false).map
      (fun t => (t.tape, t.tape_ptr, t.instruction_loop_ptr, t.jump_loop, t.output)) =
      .ok (c5_w.tape, c5_w.tape_ptr, c5_w.instruction_loop_ptr, c5_w.jump_loop,
           c5_w.output) :=
  skip_mode_six_ops_no_effect 2 c5_w '+' false (by decide) (by decide)

/-- Claim C6: dispatching a loop-end with skip depth zero and a non-zero
current cell runs the replay loop and pops the loop-start stack once when it
finishes; the replay loop stops as soon as the cell is zero, and otherwise
saves the cursor, restarts it one past the top of the loop-start stack,
replays each buffered Ledger instruction (dispatched with
`via_loop = true`, which appends nothing) advancing the cursor by one until
it reaches the saved value, restores the saved cursor and re-checks the
cell. -/
theorem loop_end_replay_equations :
    (∀ (s : BrainfuckVMStatus) (c : Char), (next_op s c true).2 = s)
    ∧ (∀ (f : Nat) (s : BrainfuckVMStatus) (via : Bool), s.jump_loop = 0 →
        s.tape s.tape_ptr ≠ 0 →
        run_vm (f + 1) s ']' via =
          (loopEndOuter (fun s' c' => run_vm f s' c' true) f (next_op s ']' via).2).map
            (fun t => { t with instruction_loop_ptr := t.instruction_loop_ptr.dropLast }))
    ∧ (∀ (step : BrainfuckVMStatus → Char → Except VMError BrainfuckVMStatus)
        (f : Nat) (s : BrainfuckVMStatus), s.tape s.tape_ptr = 0 →
        loopEndOuter step (f + 1) s = .ok s)
    ∧ (∀ (step : BrainfuckVMStatus → Char → Except VMError BrainfuckVMStatus)
        (f : Nat) (s : BrainfuckVMStatus) (last : Int),
        s.tape s.tape_ptr ≠ 0 → s.instruction_loop_ptr.getLast? = some last →
        loopEndOuter step (f + 1) s =
          (replayInner step f { s with instruction_ptr_current := last + 1 }
              s.instruction_ptr_current).bind
            (fun s' => loopEndOuter step f
              { s' with instruction_ptr_current := s.instruction_ptr_current }))
    ∧ (∀ (step : BrainfuckVMStatus → Char → Except VMError BrainfuckVMStatus)
        (f : Nat) (s : BrainfuckVMStatus) (current : Int) (c : Char),
        s.instruction_ptr_current < current → 0 ≤ s.instruction_ptr_current →
        s.instruction.get? s.instruction_ptr_current.toNat = some c →
        replayInner step (f + 1) s current =
          (step s c).bind (fun s' =>
            replayInner step f
              { s' with instruction_ptr_current := s'.instruction_ptr_current + 1 }
              current))
    ∧ (∀ (step : BrainfuckVMStatus → Char → Except VMError BrainfuckVMStatus)
        (f : Nat) (s : BrainfuckVMStatus) (current : Int),
        ¬ s.instruction_ptr_current < current →
        replayInner step (f + 1) s current = .ok s) := by
  refine ⟨fun s c => rfl, ?_, ?_, ?_, ?_, ?_⟩
  · intro f s via h1 h2
    cases via <;> simp [run_vm, next_op, charToOp, h1, h2]
  · intro step f s h
    simp [loopEndOuter, h]
  · intro step f s last h1 h2
    simp only [loopEndOuter]
    rw [if_neg h1, h2]
    cases hr : replayInner step f { s with instruction_ptr_current := last + 1 }
        s.instruction_ptr_current <;> simp [Except.bind, hr]
  · intro step f s current c h1 h2 h3
    simp only [replayInner]
    rw [if_pos h1, if_neg (by omega), h3]
    cases hr : step s c <;> simp [Except.bind, hr]
  · intro step f s current h
    simp [replayInner, h]

/-- Witness for claim C6: every equation instantiated at concrete states. -/
theorem loop_end_replay_equations_witness :
    (next_op c6_w ']' true).2 = c6_w
    ∧ run_vm (6 + 1) c6_w ']' true =
        (loopEndOuter (fun s' c' => run_vm 6 s' c' true) 6 (next_op c6_w ']' true).2).map
          (fun t => { t with instruction_loop_ptr := t.instruction_loop_ptr.dropLast })
    ∧ loopEndOuter (fun s' c' => run_vm 5 s' c' true) (3 + 1) c6_z = .ok c6_z
    ∧ loopEndOuter (fun s' c' => run_vm 5 s' c' true) (3 + 1) c6_w =
        (replayInner (fun s' c' => run_vm 5 s' c' true) 3
            { c6_w with instruction_ptr_current := (0 : Int) + 1 }
            c6_w.instruction_ptr_current).bind
          (fun s' => loopEndOuter (fun s' c' => run_vm 5 s' c' true) 3
            { s' with instruction_ptr_current := c6_w.instruction_ptr_current })
    ∧ replayInner (fun s' c' => run_vm 5 s' c' true) (3 + 1) c6_r 1 =
        (run_vm 5 c6_r '-' true).bind (fun s' =>
          replayInner (fun s' c' => run_vm 5 s' c' true) 3
            { s' with instruction_ptr_current := s'.instruction_ptr_current + 1 } 1)
    ∧ replayInner (fun s' c' => run_vm 5 s' c' true) (3 + 1) c6_w 0 = .ok c6_w :=
  ⟨loop_end_replay_equations.1 c6_w ']',
   loop_end_replay_equations.2.1 6 c6_w true (by decide) (by decide),
   loop_end_replay_equations.2.2.1 _ 3 c6_z rfl,
   loop_end_replay_equations.2.2.2.1 _ 3 c6_w 0 (by decide) (by decide),
   loop_end_replay_equations.2.2.2.2.1 _ 3 c6_r 1 '-' (by decide) (by decide)
     (by decide),
   loop_end_replay_equations.2.2.2.2.2 _ 3 c6_w 0 (by decide)⟩

/-- Claim C7: `+++[-]` from a fresh engine terminates with the cell at index
0 equal to 0 (loop-start stack popped, no skip active); the cell is 3 when
the loop is entered, 2 after the single live pass over the body (iteration
1), 1 after the first replay of the body (iteration 2), 0 after the second
replay (iteration 3), and the outer replay loop then stops at once (it
succeeds with fuel 1, performing no fourth iteration) — exactly 3 body
iterations, each decrementing the cell by 1. -/
theorem plus3_loop_minus_trace :
    (runProgram 10 c7_prog []).map
      (fun s => (s.tape 0, s.instruction_loop_ptr, s.jump_loop)) = .ok (0, [], 0)
    ∧ (runChars 10 ['+', '+', '+', '['] (new_brainfuck_status [])).map
        (fun s => (s.tape 0, s.instruction_loop_ptr)) = .ok (3, [3])
    ∧ (runChars 10 ['+', '+', '+', '[', '-'] (new_brainfuck_status [])).map
        (fun s => s.tape 0) = .ok 2
    ∧ (replayInner (fun s' c' => run_vm 5 s' c' true) 5
        { c7_body_state 2 with instruction_ptr_current := 4 } 5).map
        (fun s => (s.tape 0, s.instruction_ptr_current)) = .ok (1, 5)
    ∧ (replayInner (fun s' c' => run_vm 5 s' c' true) 5
        { c7_body_state 1 with instruction_ptr_current := 4 } 5).map
        (fun s => (s.tape 0, s.instruction_ptr_current)) = .ok (0, 5)
    ∧ (loopEndOuter (fun s' c' => run_vm 5 s' c' true) 1 (c7_body_state 0)).map
        (fun s => (s.tape 0, s.instruction_loop_ptr, s.instruction_ptr_current)) =
        .ok (0, [3], 5) := by
  decide

/-- Claim C8: an input instruction dispatched with skip depth zero stores the
next available byte's numeric value (a number in 0..255) into the tape cell
at the current pointer and consumes it from the input; if no byte is
available the run aborts at once with the fatal `inputUnavailable` error —
no retry, no default value. -/
theorem read_op_byte_or_fatal (f : Nat) (s : BrainfuckVMStatus) (via : Bool) :
    (∀ (b : Fin 256) (rest : List (Fin 256)), s.jump_loop = 0 → s.input = b :: rest →
      run_vm (f + 1) s ',' via =
        .ok { (next_op s ',' via).2 with
              tape := tapeSet s.tape s.tape_ptr (b.val : Int)
              input := rest }
      ∧ 0 ≤ (b.val : Int) ∧ (b.val : Int) < 256)
    ∧ (s.jump_loop = 0 → s.input = [] →
      run_vm (f + 1) s ',' via = .error .inputUnavailable) := by
  constructor
  · intro b rest h1 h2
    refine ⟨?_, Int.natCast_nonneg _, by exact_mod_cast b.isLt⟩
    cases via <;> simp [run_vm, next_op, charToOp, h1, h2]
  · intro h1 h2
    cases via <;> simp [run_vm, next_op, charToOp, h1, h2]

/-- Witness for claim C8: byte 65 is stored at the pointer, and an empty
input aborts the run. -/
theorem read_op_byte_or_fatal_witness :
    (run_vm (2 + 1) c8_w ',' false =
      .ok { (next_op c8_w ',' false).2 with
            tape := tapeSet c8_w.tape c8_w.tape_ptr (((65 : Fin 256)).val : Int)
            input := [] }
      ∧ 0 ≤ (((65 : Fin 256)).val : Int) ∧ (((65 : Fin 256)).val : Int) < 256)
    ∧ run_vm (2 + 1) c8_w2 ',' false = .error .inputUnavailable :=
  ⟨(read_op_byte_or_fatal 2 c8_w false).1 (65 : Fin 256) [] (by decide) rfl,
   (read_op_byte_or_fatal 2 c8_w2 false).2 (by decide) rfl⟩

/-- Claim C9: the engine is deterministic — two runs from independent fresh
engine states consuming the same program characters and the same input bytes
produce identical output byte sequences and identical final tape contents
(cell by cell), with the same success or failure. -/
theorem engine_deterministic (f : Nat) (prog : List Char) (inp : List (Fin 256))
    (s1 s2 : BrainfuckVMStatus)
    (h1 : s1 = new_brainfuck_status inp) (h2 : s2 = new_brainfuck_status inp) :
    (runChars f prog s1).map (fun s => s.output) =
      (runChars f prog s2).map (fun s => s.output)
    ∧ ∀ i : Int, (runChars f prog s1).map (fun s => s.tape i) =
        (runChars f prog s2).map (fun s => s.tape i) := by
  subst h1; subst h2; exact ⟨rfl, fun _ => rfl⟩

/-- Witness for claim C9 at the program `+.` with empty input. -/
theorem engine_deterministic_witness :
    (runChars 5 ['+', '.'] (new_brainfuck_status [])).map (fun s => s.output) =
      (runChars 5 ['+', '.'] (new_brainfuck_status [])).map (fun s => s.output)
    ∧ ∀ i : Int,
      (runChars 5 ['+', '.'] (new_brainfuck_status [])).map (fun s => s.tape i) =
        (runChars 5 ['+', '.'] (new_brainfuck_status [])).map (fun s => s.tape i) :=
  engine_deterministic 5 ['+', '.'] [] (new_brainfuck_status [])
    (new_brainfuck_status []) rfl rfl

/-- The replay `while` loop of the `LoopEndOp` arm, run on a state with a
non-zero current cell and an empty loop-start stack, changes nothing in any
iteration (`if let Some(last)` fails) and re-tests the same cell forever:
every fuel is exhausted. -/
theorem loopEndOuter_empty_stack_diverges
    (step : BrainfuckVMStatus → Char → Except VMError BrainfuckVMStatus)
    (s : BrainfuckVMStatus) (h2 : s.tape s.tape_ptr ≠ 0)
    (h3 : s.instruction_loop_ptr = []) :
    ∀ f : Nat, loopEndOuter step f s = .error .outOfFuel := by
  intro f
  induction f with
  | zero => rfl
  | succ f ih => simp [loopEndOuter, h2, h3, ih]

/-- Claim C10: a loop-end dispatched with skip depth zero, a non-zero value
at the current tape index and an empty loop-start stack never terminates —
the replay loop finds no loop-start to jump to, changes no state, and
re-tests the same cell forever, so the run exhausts every fuel bound. -/
theorem loop_end_empty_stack_diverges (f : Nat) (s : BrainfuckVMStatus) (via : Bool)
    (h1 : s.jump_loop = 0) (h2 : s.tape s.tape_ptr ≠ 0)
    (h3 : s.instruction_loop_ptr = []) :
    run_vm f s ']' via = .error .outOfFuel := by
  cases f with
  | zero => rfl
  | succ f =>
    cases via
    · have h := loopEndOuter_empty_stack_diverges
        (fun s' c' => run_vm f s' c' true)
        { s with instruction := s.instruction ++ [']']
                 instruction_ptr_current := s.instruction_ptr_current + 1
                 jump_loop := 0 }
        h2 h3 f
      simp [run_vm, next_op, charToOp, h1, h2, Except.map, h]
    · have h := loopEndOuter_empty_stack_diverges
        (fun s' c' => run_vm f s' c' true) s h2 h3 f
      simp [run_vm, next_op, charToOp, h1, h2, Except.map, h]

/-- Witness for claim C10 at a concrete state (cell 1, empty stack). -/
theorem loop_end_empty_stack_diverges_witness :
    run_vm 7 c10_w ']' true = .error .outOfFuel :=
  loop_end_empty_stack_diverges 7 c10_w true (by decide) (by decide) rfl
